import Mathlib

/-!
Verification of the gesture-recognition core of the Gold Miner face-control
script (src/js/face.js).

The script is embedded shallowly: JavaScript numbers are modelled by an
arbitrary linear ordered field `K` (instantiated at `ℚ` for concrete
evaluation and at `ℝ` when the square root matters), `Math.sqrt` is passed
as an explicit function parameter, the mutable singleton `gameGestureState`
becomes an explicit state record threaded through every function, and the
per-frame `faceMesh.onResults` callback becomes a step function from a
state and an optional landmark set to a new state plus the list of emitted
events.  Decimal literals of the source are written as exact fractions
(0.28 becomes 28/100, and so on).
-/

namespace FaceGoldMiner

/-- A landmark: a normalized 2D point, as produced per frame. -/
structure Point (K : Type) where
  x : K
  y : K
  deriving DecidableEq

/-- A landmark set: the JS landmark array, indexed by integer; absent
indices read as `undefined`, modelled by `none`. -/
def Landmarks (K : Type) : Type := Nat → Option (Point K)

/-- `FACE_LANDMARKS.MOUTH_LEFT` (face.js line 57). -/
def MOUTH_LEFT : Nat := 61

/-- `FACE_LANDMARKS.MOUTH_RIGHT` (face.js line 58). -/
def MOUTH_RIGHT : Nat := 291

/-- `FACE_LANDMARKS.MOUTH_TOP` (face.js line 59). -/
def MOUTH_TOP : Nat := 13

/-- `FACE_LANDMARKS.MOUTH_BOTTOM` (face.js line 60). -/
def MOUTH_BOTTOM : Nat := 14

/-- `FACE_LANDMARKS.NOSE_TIP` (face.js line 64). -/
def NOSE_TIP : Nat := 1

variable {K : Type} [LinearOrderedField K]

/-- `distance(p1, p2)` (face.js lines 69-74): returns 0 when either point
is missing, otherwise the euclidean distance, computed with the ambient
square-root function `sqrt` standing for `Math.sqrt`. -/
def distance (sqrt : K → K) (p1 p2 : Option (Point K)) : K :=
  match p1, p2 with
  | some q1, some q2 =>
      sqrt ((q1.x - q2.x) * (q1.x - q2.x) + (q1.y - q2.y) * (q1.y - q2.y))
  | _, _ => 0

/-- `smoothBuffer(buffer, newValue, maxSize)` (face.js lines 76-80):
appends the new value, drops the oldest entry if the length now exceeds
`maxSize`, and returns the new buffer together with the arithmetic mean of
its contents.  The JS version mutates `buffer` in place; here the new
buffer is returned alongside the mean. -/
def smoothBuffer (buffer : List K) (newValue : K) (maxSize : Nat) : List K × K :=
  let b := buffer ++ [newValue]
  let b2 := if maxSize < b.length then b.tail else b
  (b2, b2.sum / (b2.length : K))

/-- The mutable singleton `gameGestureState` (face.js lines 28-37). -/
structure GameGestureState (K : Type) where
  smileBuffer : List K
  nodBuffer : List K
  smileCooldown : Int
  nodCooldown : Int
  lastNoseY : Option K
  frameCount : Nat
  faceDetected : Bool
  gameStarted : Bool
  deriving DecidableEq

/-- The initial value of `gameGestureState` (face.js lines 28-37). -/
def initGameGestureState : GameGestureState K :=
  { smileBuffer := []
    nodBuffer := []
    smileCooldown := 0
    nodCooldown := 0
    lastNoseY := none
    frameCount := 0
    faceDetected := false
    gameStarted := false }

/-- The `aspectRatio` computation of `detectGameSmile` (face.js lines
95-97): mouth height over mouth width, with an explicit guard returning 0
when the width is not positive. -/
def smileAspectRatio (sqrt : K → K) (leftCorner rightCorner topLip bottomLip : Point K) : K :=
  let mouthWidth := distance sqrt (some leftCorner) (some rightCorner)
  let mouthHeight := distance sqrt (some topLip) (some bottomLip)
  if 0 < mouthWidth then mouthHeight / mouthWidth else 0

/-- The combined smile score of `detectGameSmile` (face.js lines 99-105):
`aspectRatio * 0.6 + max(0, elevation * 100) * 0.4`. -/
def smileScoreOf (sqrt : K → K) (leftCorner rightCorner topLip bottomLip : Point K) : K :=
  let mouthCenterY := (topLip.y + bottomLip.y) / 2
  let avgCornerY := (leftCorner.y + rightCorner.y) / 2
  let elevation := mouthCenterY - avgCornerY
  smileAspectRatio sqrt leftCorner rightCorner topLip bottomLip * (6 / 10)
    + max 0 (elevation * 100) * (4 / 10)

/-- `detectGameSmile(landmarks)` (face.js lines 83-122), returning the
pulse boolean together with the updated state.  Missing mouth landmarks
give `(false, g)` unchanged (the early `return false` of line 91); the
surrounding try/catch is unreachable in the model since every operation is
total. -/
def detectGameSmile (sqrt : K → K) (g : GameGestureState K) (landmarks : Landmarks K) :
    Bool × GameGestureState K :=
  match landmarks MOUTH_LEFT, landmarks MOUTH_RIGHT, landmarks MOUTH_TOP,
      landmarks MOUTH_BOTTOM with
  | some leftCorner, some rightCorner, some topLip, some bottomLip =>
      let r := smoothBuffer g.smileBuffer
        (smileScoreOf sqrt leftCorner rightCorner topLip bottomLip) 4
      let g1 : GameGestureState K := { g with smileBuffer := r.1 }
      if g1.smileCooldown ≤ 0 ∧ (28 / 100 : K) < r.2 then
        (true, { g1 with smileCooldown := 120, smileBuffer := [] })
      else
        (false, g1)
  | _, _, _, _ => (false, g)

/-- `detectGameNod(landmarks)` (face.js lines 125-152).  Note the source
order: when a pulse fires, `return true` (line 142) happens before the
`lastNoseY = currentNoseY` assignment (line 146), so on a pulse frame
`lastNoseY` keeps its previous value. -/
def detectGameNod (g : GameGestureState K) (landmarks : Landmarks K) :
    Bool × GameGestureState K :=
  match landmarks NOSE_TIP with
  | none => (false, g)
  | some noseTip =>
      match g.lastNoseY with
      | some lastY =>
          let r := smoothBuffer g.nodBuffer (noseTip.y - lastY) 6
          let g1 : GameGestureState K := { g with nodBuffer := r.1 }
          if g1.nodCooldown ≤ 0 ∧ (3 / 1000 : K) < r.2 then
            (true, { g1 with nodCooldown := 45, nodBuffer := [] })
          else
            (false, { g1 with lastNoseY := some noseTip.y })
      | none => (false, { g with lastNoseY := some noseTip.y })

/-- The distinct status texts passed to `setStatus` inside the
`onResults` callback; the exact wording is a presentation concern, so each
call site becomes one constructor.  `tracking` is the periodic
`Face tracking: ...` refresh of line 195, carrying the mode it reports. -/
inductive GameStatus
  | smileToStart
  | controlsActive
  | gameStartedStatus
  | tracking (gameStarted : Bool)
  | noFaceStatus
  deriving DecidableEq

/-- Observable outputs of one `onResults` invocation: the dispatched
`face:smile` and `face:nod` custom events, and `setStatus` updates. -/
inductive GameEvent
  | faceSmile
  | faceNod
  | statusUpdate (s : GameStatus)
  deriving DecidableEq

/-- Face-presence edge handling (face.js lines 162-169): on a frame with a
face, if `faceDetected` was false it flips to true and a status update is
emitted whose text depends on `gameStarted`. -/
def facePresenceUpdate (g : GameGestureState K) : GameGestureState K × List GameEvent :=
  if g.faceDetected then (g, [])
  else
    ({ g with faceDetected := true },
      [GameEvent.statusUpdate
        (if g.gameStarted then GameStatus.controlsActive else GameStatus.smileToStart)])

/-- Smile branch of the callback (face.js lines 172-180): run the smile
classifier; on a pulse, set `gameStarted` (emitting a status update) if it
was unset, then dispatch `face:smile`. -/
def smileUpdate (sqrt : K → K) (g : GameGestureState K) (landmarks : Landmarks K) :
    Bool × GameGestureState K × List GameEvent :=
  let r := detectGameSmile sqrt g landmarks
  if r.1 then
    if r.2.gameStarted then
      (true, r.2, [GameEvent.faceSmile])
    else
      (true, { r.2 with gameStarted := true },
        [GameEvent.statusUpdate GameStatus.gameStartedStatus, GameEvent.faceSmile])
  else
    (false, r.2, [])

/-- Nod branch of the callback (face.js lines 182-188): run the nod
classifier; dispatch `face:nod` only when the pulse fired and the game has
started (read from the state current at the check). -/
def nodUpdate (g : GameGestureState K) (landmarks : Landmarks K) :
    Bool × GameGestureState K × List GameEvent :=
  let r := detectGameNod g landmarks
  (r.1, r.2, if r.1 && r.2.gameStarted then [GameEvent.faceNod] else [])

/-- Periodic status refresh (face.js lines 190-196): emitted when the
already-incremented frame counter is a multiple of 150.  In the source
this sits inside the face-present branch. -/
def periodicStatus (g : GameGestureState K) : List GameEvent :=
  if g.frameCount % 150 = 0 then
    [GameEvent.statusUpdate (GameStatus.tracking g.gameStarted)]
  else []

/-- Cooldown updates at the end of every processed frame (face.js lines
206-208): each counter is decremented only when strictly positive. -/
def decrementCooldowns (g : GameGestureState K) : GameGestureState K :=
  { g with
    smileCooldown := if 0 < g.smileCooldown then g.smileCooldown - 1 else g.smileCooldown
    nodCooldown := if 0 < g.nodCooldown then g.nodCooldown - 1 else g.nodCooldown }

/-- Result of one `onResults` invocation: the new state, the emitted
events in order, and (for the statements below) the two classifier pulse
booleans of that frame. -/
structure FrameOutput (K : Type) where
  state : GameGestureState K
  events : List GameEvent
  smilePulse : Bool
  nodPulse : Bool
  deriving DecidableEq

/-- The `faceMesh.onResults` callback (face.js lines 155-209) on one
result: `none` models an empty `multiFaceLandmarks`, `some landmarks` the
first detected face. -/
def onResults (sqrt : K → K) (g : GameGestureState K) (result : Option (Landmarks K)) :
    FrameOutput K :=
  let g0 : GameGestureState K := { g with frameCount := g.frameCount + 1 }
  match result with
  | some landmarks =>
      let fp := facePresenceUpdate g0
      let su := smileUpdate sqrt fp.1 landmarks
      let nu := nodUpdate su.2.1 landmarks
      let ev4 := periodicStatus nu.2.1
      { state := decrementCooldowns nu.2.1
        events := fp.2 ++ su.2.2 ++ nu.2.2 ++ ev4
        smilePulse := su.1
        nodPulse := nu.1 }
  | none =>
      let fl := if g0.faceDetected
        then ({ g0 with faceDetected := false }, [GameEvent.statusUpdate GameStatus.noFaceStatus])
        else (g0, [])
      { state := decrementCooldowns fl.1
        events := fl.2
        smilePulse := false
        nodPulse := false }

/-- The gesture state before processing frame `n`, starting from the
initial state, when frame `i` delivers result `inputs i`. -/
def stateAt (sqrt : K → K) (inputs : Nat → Option (Landmarks K)) : Nat → GameGestureState K
  | 0 => initGameGestureState
  | n + 1 => (onResults sqrt (stateAt sqrt inputs n) (inputs n)).state

/-- The full output of processing frame `n`. -/
def frameAt (sqrt : K → K) (inputs : Nat → Option (Landmarks K)) (n : Nat) : FrameOutput K :=
  onResults sqrt (stateAt sqrt inputs n) (inputs n)

/-- Repeated use of `smoothBuffer` with capacity `c` on one window,
starting from the empty window, feeding the values of `vs` in order; the
second component is the mean returned by the last call (0 when `vs` is
empty). -/
def runSmoother (c : Nat) (vs : List K) : List K × K :=
  vs.foldl (fun a v => smoothBuffer a.1 v c) ([], 0)

/-- State of the frame pacer `startGameFrameProcessing` (face.js lines
251-289) together with its environment-visible bookkeeping: `isProcessing`
and `frameSkipCounter` are the closure variables of the source;
`inFlight` counts submissions to `faceMesh.send` whose promise has not yet
settled; `pendingCallback` records whether a `requestAnimationFrame`
callback is currently scheduled. -/
structure PacerState where
  isProcessing : Bool
  frameSkipCounter : Nat
  inFlight : Nat
  pendingCallback : Bool
  deriving DecidableEq

/-- Environment events driving the pacer: a display tick that runs the
scheduled callback (carrying whether the video has a decoded frame, and
whether `faceMesh.send` would throw synchronously on this call), or the
settlement of the in-flight submission promise (its `.catch/.finally`
handlers). -/
inductive PacerInput
  | tick (videoReady : Bool) (sendThrows : Bool)
  | complete
  deriving DecidableEq

/-- State after `startGameFrameProcessing` runs (face.js lines 251-253 and
287): flags cleared and one animation-frame callback scheduled. -/
def initPacerState : PacerState :=
  { isProcessing := false, frameSkipCounter := 0, inFlight := 0, pendingCallback := true }

/-- One environment event against `processGameFrame` (face.js lines
255-285).  Returns the new state and whether this step called
`faceMesh.send` (a frame submission).  A tick with no scheduled callback,
or a completion with nothing in flight, is a no-op.  Every non-submitting
path calls `requestAnimationFrame` again; the submitting path reschedules
only from the promise handlers (`complete`), except when `send` throws
synchronously, in which case the catch block (lines 280-284) clears the
flag and reschedules at once. -/
def pacerStep (s : PacerState) (input : PacerInput) : PacerState × Bool :=
  match input with
  | .tick videoReady sendThrows =>
      if s.pendingCallback = false then (s, false)
      else
        let c := s.frameSkipCounter + 1
        if c % 2 ≠ 0 then
          ({ s with frameSkipCounter := c, pendingCallback := true }, false)
        else if s.isProcessing || !videoReady then
          ({ s with frameSkipCounter := c, pendingCallback := true }, false)
        else if sendThrows then
          ({ s with
              frameSkipCounter := c
              isProcessing := false
              pendingCallback := true }, true)
        else
          ({ s with
              frameSkipCounter := c
              isProcessing := true
              inFlight := s.inFlight + 1
              pendingCallback := false }, true)
  | .complete =>
      if s.inFlight = 0 then (s, false)
      else
        ({ s with
            inFlight := s.inFlight - 1
            isProcessing := false
            pendingCallback := true }, false)

/-- Pacer state before environment event `n`. -/
def pacerStateAt (inputs : Nat → PacerInput) : Nat → PacerState
  | 0 => initPacerState
  | n + 1 => (pacerStep (pacerStateAt inputs n) (inputs n)).1

/-- Outcome of the camera setup attempt `setupGameCamera` (face.js lines
212-248), abstracting the three ways the host environment can resolve it:
`getUserMedia` succeeds and the returned readiness promise resolves;
`getUserMedia` rejects (permission refusal); or the readiness promise
returned from the try block rejects (video error, `play()` rejection, or
the 10-second timeout of line 239). -/
inductive CameraOutcome
  | success
  | getUserMediaFailure
  | setupRejected
  deriving DecidableEq

/-- A startup scenario for `initGameFaceDetection` (face.js lines 4-328):
whether the `FaceMesh` global is defined at load (line 19), and how the
camera setup resolves. -/
structure StartupScenario where
  faceMeshDefined : Bool
  camera : CameraOutcome
  deriving DecidableEq

/-- Whether a scenario is one of the startup failures named by the spec:
detection capability absent, camera permission refusal, or camera setup
timeout/rejection. -/
def StartupScenario.isStartupFailure (sc : StartupScenario) : Bool :=
  !sc.faceMeshDefined || decide (sc.camera ≠ CameraOutcome.success)

/-- `setupGameCamera` (face.js lines 212-248) as the pair (number of
`face:fallback` dispatches it performs itself, whether the promise seen by
its awaiting caller rejects).  When `getUserMedia` rejects, the catch
block of lines 242-247 dispatches the fallback event and rethrows.  When
instead the promise returned from inside the try block rejects (timeout,
video error, `play()` rejection), that rejection occurs after the async
function body has already returned, so the catch block of line 242 is no
longer in scope and nothing is dispatched here: the rejection surfaces
directly to the caller. -/
def setupGameCameraFallbacks : CameraOutcome → Nat × Bool
  | .success => (0, false)
  | .getUserMediaFailure => (1, true)
  | .setupRejected => (0, true)

/-- Total number of `face:fallback` dispatches during startup of
`initGameFaceDetection` (face.js lines 4-328).  If `FaceMesh` is undefined
the function dispatches once and returns (lines 19-23).  Otherwise it
awaits `setupGameCamera`; the catch block of lines 317-321 dispatches once
more whenever that await rejects.  The catch block itself does not throw,
so the outermost `.catch` of lines 323-328 is not reached in these
scenarios. -/
def initFallbackDispatches (sc : StartupScenario) : Nat :=
  if sc.faceMeshDefined = false then 1
  else
    let r := setupGameCameraFallbacks sc.camera
    r.1 + (if r.2 then 1 else 0)

/-- A degenerate square-root function, used only to instantiate statements
that hold for every square-root function. -/
def zeroSqrt : ℚ → ℚ := fun _ => 0

/-- A landmark set holding only a nose tip at height `y`. -/
def noseLandmarks (y : ℚ) : Landmarks ℚ :=
  fun i => if i = NOSE_TIP then some { x := 0, y := y } else none

/-- A landmark set holding only the four mouth landmarks, lips at height 1
and corners at height 0 (a maximal smile under the score formula). -/
def bigSmileLandmarks : Landmarks ℚ :=
  fun i =>
    if i = MOUTH_LEFT then some { x := 0, y := 0 }
    else if i = MOUTH_RIGHT then some { x := 0, y := 0 }
    else if i = MOUTH_TOP then some { x := 0, y := 1 }
    else if i = MOUTH_BOTTOM then some { x := 0, y := 1 }
    else none

/-- The empty landmark set. -/
def emptyLandmarks : Landmarks ℚ := fun _ => none

/-- A state whose recorded nose height is 0, ready to fire a nod. -/
def c1State : GameGestureState ℚ :=
  { initGameGestureState with lastNoseY := some 0 }

/-- Concrete input stream: a big smile on frame 0, nothing afterwards. -/
def c3SmileInputs : Nat → Option (Landmarks ℚ) :=
  fun n => if n = 0 then some bigSmileLandmarks else none

/-- Concrete input stream: nose at 0 on frame 0, nose at 1 on frame 1
(firing a nod on frame 1), nothing afterwards. -/
def c3NodInputs : Nat → Option (Landmarks ℚ) :=
  fun n => if n = 0 then some (noseLandmarks 0) else
    if n = 1 then some (noseLandmarks 1) else none

/-- Concrete input stream: no face on any frame. -/
def c5Inputs : Nat → Option (Landmarks ℚ) := fun _ => none

/-- Concrete input stream: nose at 0, then nose at 1, then nothing; the
nod fired on frame 1 precedes any smile, so the game has not started. -/
def c6Inputs : Nat → Option (Landmarks ℚ) :=
  fun n => if n = 0 then some (noseLandmarks 0) else
    if n = 1 then some (noseLandmarks 1) else none

/-- Concrete input stream: a face with nose at 1/2 on frame 0, the face
lost on frame 1, and a face re-acquired with nose at 6/10 on frame 2. -/
def c10Inputs : Nat → Option (Landmarks ℚ) :=
  fun n => if n = 0 then some (noseLandmarks (1 / 2)) else
    if n = 1 then none else
    if n = 2 then some (noseLandmarks (6 / 10)) else none

/-- Concrete pacer environment: ready, non-throwing ticks forever. -/
def c7Inputs : Nat → PacerInput := fun _ => PacerInput.tick true false

/-! ### Helper lemmas about the classifiers -/

theorem detectGameSmile_not_fire (sqrt : K → K) (g : GameGestureState K) (lm : Landmarks K)
    (h : 0 < g.smileCooldown) :
    (detectGameSmile sqrt g lm).1 = false ∧
      (detectGameSmile sqrt g lm).2.smileCooldown = g.smileCooldown := by
  unfold detectGameSmile
  cases h1 : lm MOUTH_LEFT <;> cases h2 : lm MOUTH_RIGHT <;> cases h3 : lm MOUTH_TOP <;>
      cases h4 : lm MOUTH_BOTTOM <;> dsimp only <;>
    try exact ⟨rfl, rfl⟩
  split_ifs with hc
  · exact absurd hc.1 (not_le.mpr h)
  · exact ⟨rfl, rfl⟩

theorem detectGameSmile_fired (sqrt : K → K) (g : GameGestureState K) (lm : Landmarks K)
    (h : (detectGameSmile sqrt g lm).1 = true) :
    (detectGameSmile sqrt g lm).2.smileCooldown = 120 := by
  unfold detectGameSmile at h ⊢
  cases h1 : lm MOUTH_LEFT <;> rw [h1] at h <;> cases h2 : lm MOUTH_RIGHT <;> rw [h2] at h <;>
      cases h3 : lm MOUTH_TOP <;> rw [h3] at h <;> cases h4 : lm MOUTH_BOTTOM <;> rw [h4] at h <;>
      dsimp only at h ⊢ <;>
    try exact Bool.noConfusion h
  split_ifs at h ⊢ with hc <;> first | rfl | exact Bool.noConfusion h

theorem detectGameSmile_fields (sqrt : K → K) (g : GameGestureState K) (lm : Landmarks K) :
    (detectGameSmile sqrt g lm).2.nodBuffer = g.nodBuffer ∧
      (detectGameSmile sqrt g lm).2.nodCooldown = g.nodCooldown ∧
      (detectGameSmile sqrt g lm).2.lastNoseY = g.lastNoseY ∧
      (detectGameSmile sqrt g lm).2.frameCount = g.frameCount ∧
      (detectGameSmile sqrt g lm).2.faceDetected = g.faceDetected ∧
      (detectGameSmile sqrt g lm).2.gameStarted = g.gameStarted := by
  unfold detectGameSmile
  cases h1 : lm MOUTH_LEFT <;> cases h2 : lm MOUTH_RIGHT <;> cases h3 : lm MOUTH_TOP <;>
      cases h4 : lm MOUTH_BOTTOM <;> dsimp only <;>
    try exact ⟨rfl, rfl, rfl, rfl, rfl, rfl⟩
  split_ifs with hc <;> exact ⟨rfl, rfl, rfl, rfl, rfl, rfl⟩

theorem detectGameNod_not_fire (g : GameGestureState K) (lm : Landmarks K)
    (h : 0 < g.nodCooldown) :
    (detectGameNod g lm).1 = false ∧
      (detectGameNod g lm).2.nodCooldown = g.nodCooldown := by
  unfold detectGameNod
  cases h1 : lm NOSE_TIP <;> dsimp only <;> try exact ⟨rfl, rfl⟩
  cases h2 : g.lastNoseY <;> dsimp only <;> try exact ⟨rfl, rfl⟩
  split_ifs with hc
  · exact absurd hc.1 (not_le.mpr h)
  · exact ⟨rfl, rfl⟩

theorem detectGameNod_fired (g : GameGestureState K) (lm : Landmarks K)
    (h : (detectGameNod g lm).1 = true) :
    (detectGameNod g lm).2.nodCooldown = 45 ∧
      (detectGameNod g lm).2.lastNoseY = g.lastNoseY := by
  unfold detectGameNod at h ⊢
  cases h1 : lm NOSE_TIP <;> rw [h1] at h <;> dsimp only at h ⊢
  · exact Bool.noConfusion h
  cases h2 : g.lastNoseY <;> rw [h2] at h <;> dsimp only at h ⊢
  · exact Bool.noConfusion h
  split_ifs at h ⊢ with hc <;> first | exact ⟨rfl, rfl⟩ | exact Bool.noConfusion h

theorem detectGameNod_fields (g : GameGestureState K) (lm : Landmarks K) :
    (detectGameNod g lm).2.smileBuffer = g.smileBuffer ∧
      (detectGameNod g lm).2.smileCooldown = g.smileCooldown ∧
      (detectGameNod g lm).2.frameCount = g.frameCount ∧
      (detectGameNod g lm).2.faceDetected = g.faceDetected ∧
      (detectGameNod g lm).2.gameStarted = g.gameStarted := by
  unfold detectGameNod
  cases h1 : lm NOSE_TIP <;> dsimp only <;> try exact ⟨rfl, rfl, rfl, rfl, rfl⟩
  cases h2 : g.lastNoseY <;> dsimp only <;> try exact ⟨rfl, rfl, rfl, rfl, rfl⟩
  split_ifs with hc <;> exact ⟨rfl, rfl, rfl, rfl, rfl⟩

theorem detectGameNod_lastNoseY_isSome (g : GameGestureState K) (lm : Landmarks K)
    (p : Point K) (hp : lm NOSE_TIP = some p) :
    (detectGameNod g lm).2.lastNoseY ≠ none := by
  unfold detectGameNod
  rw [hp]
  cases h2 : g.lastNoseY <;> dsimp only <;> try simp
  split_ifs with hc <;> simp

theorem detectGameNod_lastNoseY_persist (g : GameGestureState K) (lm : Landmarks K)
    (h : g.lastNoseY ≠ none) :
    (detectGameNod g lm).2.lastNoseY ≠ none := by
  unfold detectGameNod
  cases h1 : lm NOSE_TIP <;> dsimp only <;> try exact h
  cases h2 : g.lastNoseY <;> dsimp only
  · exact absurd h2 h
  · split_ifs with hc <;> simp [h2]

/-! ### Helper lemmas about the callback phases -/

theorem facePresenceUpdate_fields (g : GameGestureState K) :
    (facePresenceUpdate g).1.smileBuffer = g.smileBuffer ∧
      (facePresenceUpdate g).1.nodBuffer = g.nodBuffer ∧
      (facePresenceUpdate g).1.smileCooldown = g.smileCooldown ∧
      (facePresenceUpdate g).1.nodCooldown = g.nodCooldown ∧
      (facePresenceUpdate g).1.lastNoseY = g.lastNoseY ∧
      (facePresenceUpdate g).1.frameCount = g.frameCount ∧
      (facePresenceUpdate g).1.gameStarted = g.gameStarted := by
  unfold facePresenceUpdate
  split_ifs <;> exact ⟨rfl, rfl, rfl, rfl, rfl, rfl, rfl⟩

theorem facePresenceUpdate_no_faceNod (g : GameGestureState K) :
    GameEvent.faceNod ∉ (facePresenceUpdate g).2 := by
  unfold facePresenceUpdate
  split_ifs <;> simp

theorem smileUpdate_pulse (sqrt : K → K) (g : GameGestureState K) (lm : Landmarks K) :
    (smileUpdate sqrt g lm).1 = (detectGameSmile sqrt g lm).1 := by
  cases hp : (detectGameSmile sqrt g lm).1 <;> simp only [smileUpdate, hp] <;>
    first | rfl | (split_ifs <;> rfl)

theorem smileUpdate_fields (sqrt : K → K) (g : GameGestureState K) (lm : Landmarks K) :
    (smileUpdate sqrt g lm).2.1.nodBuffer = g.nodBuffer ∧
      (smileUpdate sqrt g lm).2.1.nodCooldown = g.nodCooldown ∧
      (smileUpdate sqrt g lm).2.1.lastNoseY = g.lastNoseY ∧
      (smileUpdate sqrt g lm).2.1.frameCount = g.frameCount ∧
      (smileUpdate sqrt g lm).2.1.faceDetected = g.faceDetected ∧
      (smileUpdate sqrt g lm).2.1.smileCooldown = (detectGameSmile sqrt g lm).2.smileCooldown := by
  obtain ⟨hb, hc, hl, hf, hd, hg⟩ := detectGameSmile_fields sqrt g lm
  cases hp : (detectGameSmile sqrt g lm).1 <;> simp only [smileUpdate, hp]
  · exact ⟨hb, hc, hl, hf, hd, rfl⟩
  · split_ifs <;> exact ⟨hb, hc, hl, hf, hd, rfl⟩

theorem smileUpdate_gameStarted (sqrt : K → K) (g : GameGestureState K) (lm : Landmarks K) :
    (smileUpdate sqrt g lm).2.1.gameStarted =
      ((detectGameSmile sqrt g lm).1 || g.gameStarted) := by
  obtain ⟨_, _, _, _, _, hg⟩ := detectGameSmile_fields sqrt g lm
  cases hp : (detectGameSmile sqrt g lm).1 <;>
    cases hd : (detectGameSmile sqrt g lm).2.gameStarted <;>
    simp [smileUpdate, hp, hd, hg.symm.trans hd]

theorem smileUpdate_no_faceNod (sqrt : K → K) (g : GameGestureState K) (lm : Landmarks K) :
    GameEvent.faceNod ∉ (smileUpdate sqrt g lm).2.2 := by
  cases hp : (detectGameSmile sqrt g lm).1 <;>
    cases hd : (detectGameSmile sqrt g lm).2.gameStarted <;>
    simp [smileUpdate, hp, hd]

theorem nodUpdate_pulse (g : GameGestureState K) (lm : Landmarks K) :
    (nodUpdate g lm).1 = (detectGameNod g lm).1 := rfl

theorem nodUpdate_state (g : GameGestureState K) (lm : Landmarks K) :
    (nodUpdate g lm).2.1 = (detectGameNod g lm).2 := rfl

theorem nodUpdate_events (g : GameGestureState K) (lm : Landmarks K) :
    (nodUpdate g lm).2.2 =
      if (detectGameNod g lm).1 && (detectGameNod g lm).2.gameStarted
      then [GameEvent.faceNod] else [] := rfl

theorem periodicStatus_no_faceNod (g : GameGestureState K) :
    GameEvent.faceNod ∉ periodicStatus g := by
  unfold periodicStatus
  split_ifs <;> simp

theorem periodicStatus_tracking (g : GameGestureState K) (b : Bool) :
    GameEvent.statusUpdate (GameStatus.tracking b) ∈ periodicStatus g ↔
      g.frameCount % 150 = 0 ∧ b = g.gameStarted := by
  unfold periodicStatus
  split_ifs with hc <;> simp [hc]

theorem decrementCooldowns_fields (g : GameGestureState K) :
    (decrementCooldowns g).smileBuffer = g.smileBuffer ∧
      (decrementCooldowns g).nodBuffer = g.nodBuffer ∧
      (decrementCooldowns g).lastNoseY = g.lastNoseY ∧
      (decrementCooldowns g).frameCount = g.frameCount ∧
      (decrementCooldowns g).faceDetected = g.faceDetected ∧
      (decrementCooldowns g).gameStarted = g.gameStarted :=
  ⟨rfl, rfl, rfl, rfl, rfl, rfl⟩

theorem decrementCooldowns_smile (g : GameGestureState K) :
    (decrementCooldowns g).smileCooldown =
      if 0 < g.smileCooldown then g.smileCooldown - 1 else g.smileCooldown := rfl

theorem decrementCooldowns_nod (g : GameGestureState K) :
    (decrementCooldowns g).nodCooldown =
      if 0 < g.nodCooldown then g.nodCooldown - 1 else g.nodCooldown := rfl

/-! ### Helper lemmas about one full callback invocation -/

theorem onResults_none (sqrt : K → K) (g : GameGestureState K) :
    onResults sqrt g none =
      { state := decrementCooldowns
          (if g.faceDetected
            then { g with frameCount := g.frameCount + 1, faceDetected := false }
            else { g with frameCount := g.frameCount + 1 })
        events := if g.faceDetected then [GameEvent.statusUpdate GameStatus.noFaceStatus] else []
        smilePulse := false
        nodPulse := false } := by
  unfold onResults
  dsimp only
  split_ifs with hd <;> rfl

theorem onResults_some_smilePulse (sqrt : K → K) (g : GameGestureState K) (lm : Landmarks K) :
    (onResults sqrt g (some lm)).smilePulse =
      (smileUpdate sqrt
        (facePresenceUpdate { g with frameCount := g.frameCount + 1 }).1 lm).1 := rfl

theorem onResults_some_nodPulse (sqrt : K → K) (g : GameGestureState K) (lm : Landmarks K) :
    (onResults sqrt g (some lm)).nodPulse =
      (nodUpdate
        (smileUpdate sqrt
          (facePresenceUpdate { g with frameCount := g.frameCount + 1 }).1 lm).2.1 lm).1 := rfl

theorem onResults_some_state (sqrt : K → K) (g : GameGestureState K) (lm : Landmarks K) :
    (onResults sqrt g (some lm)).state =
      decrementCooldowns
        (nodUpdate
          (smileUpdate sqrt
            (facePresenceUpdate { g with frameCount := g.frameCount + 1 }).1 lm).2.1 lm).2.1 := rfl

theorem onResults_some_events (sqrt : K → K) (g : GameGestureState K) (lm : Landmarks K) :
    (onResults sqrt g (some lm)).events =
      (facePresenceUpdate { g with frameCount := g.frameCount + 1 }).2 ++
        (smileUpdate sqrt
          (facePresenceUpdate { g with frameCount := g.frameCount + 1 }).1 lm).2.2 ++
        (nodUpdate
          (smileUpdate sqrt
            (facePresenceUpdate { g with frameCount := g.frameCount + 1 }).1 lm).2.1 lm).2.2 ++
        periodicStatus
          (nodUpdate
            (smileUpdate sqrt
              (facePresenceUpdate { g with frameCount := g.frameCount + 1 }).1 lm).2.1 lm).2.1 := rfl

theorem onResults_smile_not_fire (sqrt : K → K) (g : GameGestureState K)
    (input : Option (Landmarks K)) (h : 0 < g.smileCooldown) :
    (onResults sqrt g input).smilePulse = false ∧
      (onResults sqrt g input).state.smileCooldown = g.smileCooldown - 1 := by
  cases input with
  | none =>
      rw [onResults_none]
      refine ⟨rfl, ?_⟩
      dsimp only
      split_ifs with hd <;> · rw [decrementCooldowns_smile]; dsimp only; rw [if_pos h]
  | some lm =>
      have hfpc : (facePresenceUpdate { g with frameCount := g.frameCount + 1 }).1.smileCooldown
          = g.smileCooldown :=
        (facePresenceUpdate_fields { g with frameCount := g.frameCount + 1 }).2.2.1
      have hns := detectGameSmile_not_fire sqrt
        (facePresenceUpdate { g with frameCount := g.frameCount + 1 }).1 lm (by rw [hfpc]; exact h)
      constructor
      · rw [onResults_some_smilePulse, smileUpdate_pulse]
        exact hns.1
      · simp only [onResults_some_state, nodUpdate_state, decrementCooldowns_smile]
        rw [(detectGameNod_fields _ lm).2.1, (smileUpdate_fields sqrt _ lm).2.2.2.2.2, hns.2,
          hfpc, if_pos h]

theorem onResults_smile_fired (sqrt : K → K) (g : GameGestureState K)
    (input : Option (Landmarks K)) (h : (onResults sqrt g input).smilePulse = true) :
    (onResults sqrt g input).state.smileCooldown = 119 := by
  cases input with
  | none => rw [onResults_none] at h; exact Bool.noConfusion h
  | some lm =>
      rw [onResults_some_smilePulse, smileUpdate_pulse] at h
      have h120 := detectGameSmile_fired sqrt _ lm h
      simp only [onResults_some_state, nodUpdate_state, decrementCooldowns_smile]
      rw [(detectGameNod_fields _ lm).2.1, (smileUpdate_fields sqrt _ lm).2.2.2.2.2, h120]
      norm_num

theorem onResults_nod_not_fire (sqrt : K → K) (g : GameGestureState K)
    (input : Option (Landmarks K)) (h : 0 < g.nodCooldown) :
    (onResults sqrt g input).nodPulse = false ∧
      (onResults sqrt g input).state.nodCooldown = g.nodCooldown - 1 := by
  cases input with
  | none =>
      rw [onResults_none]
      refine ⟨rfl, ?_⟩
      dsimp only
      split_ifs with hd <;> · rw [decrementCooldowns_nod]; dsimp only; rw [if_pos h]
  | some lm =>
      have hsuc : (smileUpdate sqrt
          (facePresenceUpdate { g with frameCount := g.frameCount + 1 }).1 lm).2.1.nodCooldown
          = g.nodCooldown := by
        rw [(smileUpdate_fields sqrt _ lm).2.1]
        exact (facePresenceUpdate_fields { g with frameCount := g.frameCount + 1 }).2.2.2.1
      have hnn := detectGameNod_not_fire
        (smileUpdate sqrt
          (facePresenceUpdate { g with frameCount := g.frameCount + 1 }).1 lm).2.1 lm
        (by rw [hsuc]; exact h)
      constructor
      · rw [onResults_some_nodPulse, nodUpdate_pulse]
        exact hnn.1
      · simp only [onResults_some_state, nodUpdate_state, decrementCooldowns_nod]
        rw [hnn.2, hsuc, if_pos h]

theorem onResults_nod_fired (sqrt : K → K) (g : GameGestureState K)
    (input : Option (Landmarks K)) (h : (onResults sqrt g input).nodPulse = true) :
    (onResults sqrt g input).state.nodCooldown = 44 := by
  cases input with
  | none => rw [onResults_none] at h; exact Bool.noConfusion h
  | some lm =>
      rw [onResults_some_nodPulse, nodUpdate_pulse] at h
      have h45 := (detectGameNod_fired _ lm h).1
      simp only [onResults_some_state, nodUpdate_state, decrementCooldowns_nod]
      rw [h45]
      norm_num

theorem onResults_none_lastNoseY (sqrt : K → K) (g : GameGestureState K) :
    (onResults sqrt g none).state.lastNoseY = g.lastNoseY := by
  rw [onResults_none]
  dsimp only
  split_ifs with hd <;> rfl

theorem onResults_lastNoseY_persist (sqrt : K → K) (g : GameGestureState K)
    (input : Option (Landmarks K)) (h : g.lastNoseY ≠ none) :
    (onResults sqrt g input).state.lastNoseY ≠ none := by
  cases input with
  | none => rw [onResults_none_lastNoseY]; exact h
  | some lm =>
      have h1 : (smileUpdate sqrt
          (facePresenceUpdate { g with frameCount := g.frameCount + 1 }).1 lm).2.1.lastNoseY
          = g.lastNoseY := by
        rw [(smileUpdate_fields sqrt _ lm).2.2.1]
        exact (facePresenceUpdate_fields { g with frameCount := g.frameCount + 1 }).2.2.2.2.1
      have h2 := detectGameNod_lastNoseY_persist
        (smileUpdate sqrt
          (facePresenceUpdate { g with frameCount := g.frameCount + 1 }).1 lm).2.1 lm
        (by rw [h1]; exact h)
      simp only [onResults_some_state, nodUpdate_state]
      exact h2

theorem onResults_lastNoseY_set (sqrt : K → K) (g : GameGestureState K)
    (lm : Landmarks K) (p : Point K) (hp : lm NOSE_TIP = some p) :
    (onResults sqrt g (some lm)).state.lastNoseY ≠ none := by
  have h2 := detectGameNod_lastNoseY_isSome
    (smileUpdate sqrt
      (facePresenceUpdate { g with frameCount := g.frameCount + 1 }).1 lm).2.1 lm p hp
  simp only [onResults_some_state, nodUpdate_state]
  exact h2

/-! ### Cooldown evolution along a trace -/

theorem stateAt_smileCooldown_after_fire (sqrt : K → K)
    (inputs : Nat → Option (Landmarks K)) (i : Nat)
    (hf : (frameAt sqrt inputs i).smilePulse = true) :
    ∀ j : Nat, j ≤ 119 →
      (stateAt sqrt inputs (i + 1 + j)).smileCooldown = 119 - (j : Int) := by
  intro j
  induction j with
  | zero =>
      intro _
      have h119 : (stateAt sqrt inputs (i + 1)).smileCooldown = 119 :=
        onResults_smile_fired sqrt (stateAt sqrt inputs i) (inputs i) hf
      simpa using h119
  | succ j ih =>
      intro hj
      have hc := ih (by omega)
      have hpos : 0 < (stateAt sqrt inputs (i + 1 + j)).smileCooldown := by
        rw [hc]; omega
      have step := onResults_smile_not_fire sqrt (stateAt sqrt inputs (i + 1 + j))
        (inputs (i + 1 + j)) hpos
      show (onResults sqrt (stateAt sqrt inputs (i + 1 + j))
        (inputs (i + 1 + j))).state.smileCooldown = 119 - ((j : Int) + 1)
      rw [step.2, hc]
      ring

theorem stateAt_nodCooldown_after_fire (sqrt : K → K)
    (inputs : Nat → Option (Landmarks K)) (i : Nat)
    (hf : (frameAt sqrt inputs i).nodPulse = true) :
    ∀ j : Nat, j ≤ 44 →
      (stateAt sqrt inputs (i + 1 + j)).nodCooldown = 44 - (j : Int) := by
  intro j
  induction j with
  | zero =>
      intro _
      have h44 : (stateAt sqrt inputs (i + 1)).nodCooldown = 44 :=
        onResults_nod_fired sqrt (stateAt sqrt inputs i) (inputs i) hf
      simpa using h44
  | succ j ih =>
      intro hj
      have hc := ih (by omega)
      have hpos : 0 < (stateAt sqrt inputs (i + 1 + j)).nodCooldown := by
        rw [hc]; omega
      have step := onResults_nod_not_fire sqrt (stateAt sqrt inputs (i + 1 + j))
        (inputs (i + 1 + j)) hpos
      show (onResults sqrt (stateAt sqrt inputs (i + 1 + j))
        (inputs (i + 1 + j))).state.nodCooldown = 44 - ((j : Int) + 1)
      rw [step.2, hc]
      ring

/-! ### Window evolution of the signal smoother -/

theorem smoothBuffer_window (c : Nat) (w : List K) (v : K) (hw : w.length ≤ c) :
    (smoothBuffer w v c).1 = (w ++ [v]).drop (w.length + 1 - c) ∧
      (smoothBuffer w v c).1.length ≤ c := by
  unfold smoothBuffer
  dsimp only
  split_ifs with hlen
  · have hwc : w.length = c := by simp at hlen; omega
    have hd : w.length + 1 - c = 1 := by omega
    rw [hd, List.drop_one]
    refine ⟨rfl, ?_⟩
    simp [hwc]
  · have hd : w.length + 1 - c = 0 := by simp at hlen; omega
    rw [hd, List.drop_zero]
    refine ⟨rfl, ?_⟩
    simp at hlen ⊢
    omega

theorem foldl_smoothBuffer_window (c : Nat) :
    ∀ (vs : List K) (p : List K × K), p.1.length ≤ c →
      (vs.foldl (fun a v => smoothBuffer a.1 v c) p).1 =
        (p.1 ++ vs).drop (p.1.length + vs.length - c) := by
  intro vs
  induction vs with
  | nil =>
      intro p hp
      simp only [List.foldl_nil, List.append_nil, List.length_nil, Nat.add_zero]
      rw [Nat.sub_eq_zero_of_le hp, List.drop_zero]
  | cons v vs ih =>
      intro p hp
      rw [List.foldl_cons]
      obtain ⟨hwin, hlen⟩ := smoothBuffer_window c p.1 v hp
      rw [ih (smoothBuffer p.1 v c) hlen, hwin, List.length_drop,
        ← List.drop_append_of_le_length (by simp), List.drop_drop,
        List.append_assoc, List.singleton_append]
      congr 1
      simp only [List.length_append, List.length_cons, List.length_singleton, List.length_nil]
      omega

theorem foldl_smoothBuffer_mean (c : Nat) :
    ∀ (vs : List K) (p : List K × K), vs ≠ [] →
      (vs.foldl (fun a v => smoothBuffer a.1 v c) p).2 =
        (vs.foldl (fun a v => smoothBuffer a.1 v c) p).1.sum /
          ((vs.foldl (fun a v => smoothBuffer a.1 v c) p).1.length : K) := by
  intro vs
  induction vs with
  | nil => intro p h; exact absurd rfl h
  | cons v vs ih =>
      intro p _
      cases vs with
      | nil => rfl
      | cons w ws =>
          rw [List.foldl_cons]
          exact ih (smoothBuffer p.1 v c) (by simp)

theorem facePresenceUpdate_no_tracking (g : GameGestureState K) (b : Bool) :
    GameEvent.statusUpdate (GameStatus.tracking b) ∉ (facePresenceUpdate g).2 := by
  unfold facePresenceUpdate
  split_ifs <;> simp <;> split_ifs <;> simp

theorem smileUpdate_no_tracking (sqrt : K → K) (g : GameGestureState K) (lm : Landmarks K)
    (b : Bool) :
    GameEvent.statusUpdate (GameStatus.tracking b) ∉ (smileUpdate sqrt g lm).2.2 := by
  cases hp : (detectGameSmile sqrt g lm).1 <;>
    cases hd : (detectGameSmile sqrt g lm).2.gameStarted <;>
    simp [smileUpdate, hp, hd]

theorem nodUpdate_no_tracking (g : GameGestureState K) (lm : Landmarks K) (b : Bool) :
    GameEvent.statusUpdate (GameStatus.tracking b) ∉ (nodUpdate g lm).2.2 := by
  rw [nodUpdate_events]
  split_ifs <;> simp

/-! ### Claim theorems -/

/-- Claim C1 as stated is refuted: on a pulse frame `detectGameNod` returns
before the `lastNoseY = currentNoseY` assignment, so the stored nose height
is not updated.  Concretely: with recorded nose height 0 and a frame whose
nose tip is at height 1, the classifier fires a pulse and `lastNoseY`
remains 0 rather than becoming 1. -/
theorem c1_counterexample :
    (noseLandmarks 1) NOSE_TIP = some { x := 0, y := 1 } ∧
      c1State.lastNoseY ≠ none ∧
      (detectGameNod c1State (noseLandmarks 1)).1 = true ∧
      (detectGameNod c1State (noseLandmarks 1)).2.lastNoseY ≠ some (1 : ℚ) := by
  with_unfolding_all decide

/-- Claim C1 (amended): for every frame on which the nod classifier is
invoked with a nose-tip landmark present and a previous nose-Y value
recorded, after the evaluation the stored last nose-Y value equals the
current nose-tip y when no pulse fired on that frame, and keeps its
previous value when a pulse fired. -/
theorem c1_lastNoseY_update (K : Type) [LinearOrderedField K] (g : GameGestureState K)
    (lm : Landmarks K) (p : Point K) (hp : lm NOSE_TIP = some p)
    (hl : g.lastNoseY ≠ none) :
    ((detectGameNod g lm).1 = false → (detectGameNod g lm).2.lastNoseY = some p.y) ∧
      ((detectGameNod g lm).1 = true → (detectGameNod g lm).2.lastNoseY = g.lastNoseY) := by
  unfold detectGameNod
  rw [hp]
  cases h2 : g.lastNoseY
  · exact absurd h2 hl
  · dsimp only
    split_ifs with hc
    · exact ⟨fun h => h.elim, fun _ => rfl⟩
    · exact ⟨fun _ => rfl, fun h => h.elim⟩

/-- Witness for C1 (amended) at a concrete no-pulse input. -/
theorem c1_lastNoseY_update_witness :
    ((detectGameNod c1State (noseLandmarks 0)).1 = false →
        (detectGameNod c1State (noseLandmarks 0)).2.lastNoseY =
          some (({ x := 0, y := 0 } : Point ℚ)).y) ∧
      ((detectGameNod c1State (noseLandmarks 0)).1 = true →
        (detectGameNod c1State (noseLandmarks 0)).2.lastNoseY = c1State.lastNoseY) :=
  c1_lastNoseY_update ℚ c1State (noseLandmarks 0) { x := 0, y := 0 } rfl (by decide)

/-- Claim C2 as stated is refuted: on a camera permission refusal the
fallback event is dispatched twice, once by the catch block inside
`setupGameCamera` (which then rethrows) and once more by the catch block
wrapping the startup sequence (face.js lines 317-321). -/
theorem c2_counterexample :
    (StartupScenario.mk true CameraOutcome.getUserMediaFailure).isStartupFailure = true ∧
      initFallbackDispatches ⟨true, CameraOutcome.getUserMediaFailure⟩ = 2 ∧
      ¬ initFallbackDispatches ⟨true, CameraOutcome.getUserMediaFailure⟩ ≤ 1 := by
  decide

/-- Claim C2 (amended): during a startup failure the fallback event is
dispatched at least once and at most twice: twice exactly when getUserMedia
itself rejects (permission refusal), once in the other failure scenarios
(detection capability absent; camera setup promise rejected after
getUserMedia succeeded, which covers the 10-second timeout). -/
theorem c2_fallback_dispatches (sc : StartupScenario) (h : sc.isStartupFailure = true) :
    1 ≤ initFallbackDispatches sc ∧ initFallbackDispatches sc ≤ 2 ∧
      (initFallbackDispatches sc = 2 ↔
        sc.faceMeshDefined = true ∧ sc.camera = CameraOutcome.getUserMediaFailure) := by
  obtain ⟨fm, cam⟩ := sc
  revert h
  cases fm <;> cases cam <;> decide

/-- Witness for C2 (amended) at the camera-timeout scenario. -/
theorem c2_fallback_dispatches_witness :
    1 ≤ initFallbackDispatches ⟨true, CameraOutcome.setupRejected⟩ ∧
      initFallbackDispatches ⟨true, CameraOutcome.setupRejected⟩ ≤ 2 ∧
      (initFallbackDispatches ⟨true, CameraOutcome.setupRejected⟩ = 2 ↔
        (StartupScenario.mk true CameraOutcome.setupRejected).faceMeshDefined = true ∧
          (StartupScenario.mk true CameraOutcome.setupRejected).camera =
            CameraOutcome.getUserMediaFailure) :=
  c2_fallback_dispatches ⟨true, CameraOutcome.setupRejected⟩ (by decide)

/-- Claim C4: for every capacity C at least 1 and every value sequence
longer than C pushed through the signal smoother starting from an empty
window, after the last push the window holds exactly the last C values in
their arrival order (FIFO eviction of the oldest), and the value returned
by the last push is the arithmetic mean of the final window contents. -/
theorem c4_smoother_fifo (K : Type) [LinearOrderedField K] (c : Nat) (vs : List K)
    (hc : 1 ≤ c) (hn : c < vs.length) :
    (runSmoother c vs).1 = vs.drop (vs.length - c) ∧
      (runSmoother c vs).1.length = c ∧
      (runSmoother c vs).2 =
        (runSmoother c vs).1.sum / ((runSmoother c vs).1.length : K) := by
  have hne : vs ≠ [] := by
    intro h
    rw [h] at hn
    simp at hn
  have hwin := foldl_smoothBuffer_window c vs ([], (0 : K)) (by simp)
  simp only [List.nil_append, List.length_nil, Nat.zero_add] at hwin
  simp only [runSmoother]
  refine ⟨hwin, ?_, ?_⟩
  · rw [hwin, List.length_drop]
    omega
  · exact foldl_smoothBuffer_mean c vs ([], 0) hne

/-- Witness for C4 at capacity 1 with inputs [1, 2]. -/
theorem c4_smoother_fifo_witness :
    (runSmoother 1 ([1, 2] : List ℚ)).1 = ([1, 2] : List ℚ).drop (([1, 2] : List ℚ).length - 1) ∧
      (runSmoother 1 ([1, 2] : List ℚ)).1.length = 1 ∧
      (runSmoother 1 ([1, 2] : List ℚ)).2 =
        (runSmoother 1 ([1, 2] : List ℚ)).1.sum /
          ((runSmoother 1 ([1, 2] : List ℚ)).1.length : ℚ) :=
  c4_smoother_fifo ℚ 1 [1, 2] (by decide) (by decide)

/-- Claim C8: when the left and right mouth corner landmarks coincide the
mouth width is the square root of 0, the divide-by-zero guard takes its
else branch, and the smile classifier aspect ratio is exactly the real
number 0 — the computation is total, so nothing is raised and no NaN-like
value appears. -/
theorem c8_aspect_ratio_zero (leftCorner rightCorner topLip bottomLip : Point ℝ)
    (h : leftCorner = rightCorner) :
    smileAspectRatio Real.sqrt leftCorner rightCorner topLip bottomLip = 0 := by
  subst h
  unfold smileAspectRatio distance
  dsimp only
  rw [sub_self, sub_self, mul_zero, add_zero, Real.sqrt_zero]
  rw [if_neg (lt_irrefl 0)]

/-- Witness for C8 at concrete coincident corners. -/
theorem c8_aspect_ratio_zero_witness :
    smileAspectRatio Real.sqrt ({ x := 1 / 2, y := 1 / 3 } : Point ℝ) { x := 1 / 2, y := 1 / 3 }
      { x := 0, y := 0 } { x := 0, y := 1 } = 0 :=
  c8_aspect_ratio_zero _ _ _ _ rfl

/-- Claim C9: a landmark set missing any of the four mouth landmarks makes
the smile classifier report no pulse and return the gesture state
completely unchanged — in particular its cooldown timer and its score
window are untouched for that frame. -/
theorem c9_missing_mouth_landmark (K : Type) [LinearOrderedField K] (sqrt : K → K)
    (g : GameGestureState K) (lm : Landmarks K)
    (h : lm MOUTH_LEFT = none ∨ lm MOUTH_RIGHT = none ∨ lm MOUTH_TOP = none ∨
      lm MOUTH_BOTTOM = none) :
    detectGameSmile sqrt g lm = (false, g) := by
  unfold detectGameSmile
  cases h1 : lm MOUTH_LEFT <;> cases h2 : lm MOUTH_RIGHT <;> cases h3 : lm MOUTH_TOP <;>
      cases h4 : lm MOUTH_BOTTOM <;> try rfl
  rw [h1, h2, h3, h4] at h
  rcases h with h | h | h | h <;> exact Option.noConfusion h

/-- Witness for C9 at the empty landmark set. -/
theorem c9_missing_mouth_landmark_witness :
    detectGameSmile zeroSqrt initGameGestureState emptyLandmarks =
      (false, initGameGestureState) :=
  c9_missing_mouth_landmark ℚ zeroSqrt initGameGestureState emptyLandmarks (Or.inl rfl)

/-- Claim C3: once a classifier fires a pulse, it fires no further pulse
until its cooldown (120 frames for the smile classifier, 45 for the nod
classifier) has run down — the counter is decremented once per processed
frame and floor-clamped at 0, and a pulse requires it to be at 0 — no
matter how extreme the input signal is during the cooldown.  In
particular a second smile pulse comes no earlier than 120 frames after the
first. -/
theorem c3_cooldown_gating (K : Type) [LinearOrderedField K] :
    (∀ (sqrt : K → K) (inputs : Nat → Option (Landmarks K)) (i k : Nat),
        (frameAt sqrt inputs i).smilePulse = true → 1 ≤ k → k < 120 →
        (frameAt sqrt inputs (i + k)).smilePulse = false) ∧
      (∀ (sqrt : K → K) (inputs : Nat → Option (Landmarks K)) (i k : Nat),
        (frameAt sqrt inputs i).nodPulse = true → 1 ≤ k → k < 45 →
        (frameAt sqrt inputs (i + k)).nodPulse = false) := by
  constructor
  · intro sqrt inputs i k hf h1 h2
    have hc := stateAt_smileCooldown_after_fire sqrt inputs i hf (k - 1) (by omega)
    have heq : i + 1 + (k - 1) = i + k := by omega
    rw [heq] at hc
    have hpos : 0 < (stateAt sqrt inputs (i + k)).smileCooldown := by
      rw [hc]; omega
    exact (onResults_smile_not_fire sqrt _ (inputs (i + k)) hpos).1
  · intro sqrt inputs i k hf h1 h2
    have hc := stateAt_nodCooldown_after_fire sqrt inputs i hf (k - 1) (by omega)
    have heq : i + 1 + (k - 1) = i + k := by omega
    rw [heq] at hc
    have hpos : 0 < (stateAt sqrt inputs (i + k)).nodCooldown := by
      rw [hc]; omega
    exact (onResults_nod_not_fire sqrt _ (inputs (i + k)) hpos).1

/-- Witness for C3: a smile pulse on frame 0 blocks frame 1, and a nod
pulse on frame 1 blocks frame 2, on concrete traces. -/
theorem c3_cooldown_gating_witness :
    (frameAt zeroSqrt c3SmileInputs (0 + 1)).smilePulse = false ∧
      (frameAt zeroSqrt c3NodInputs (1 + 1)).nodPulse = false :=
  ⟨(c3_cooldown_gating ℚ).1 zeroSqrt c3SmileInputs 0 1 (by with_unfolding_all decide)
      (by decide) (by decide),
    (c3_cooldown_gating ℚ).2 zeroSqrt c3NodInputs 1 1 (by with_unfolding_all decide)
      (by decide) (by decide)⟩

/-- Reachable pacer states keep the submission bookkeeping consistent: a
clear processing flag means nothing is in flight, a set processing flag
means exactly one submission is in flight and no callback is scheduled. -/
theorem pacerStateAt_invariant (inputs : Nat → PacerInput) (n : Nat) :
    ((pacerStateAt inputs n).isProcessing = false → (pacerStateAt inputs n).inFlight = 0) ∧
      ((pacerStateAt inputs n).isProcessing = true → (pacerStateAt inputs n).inFlight = 1) ∧
      ((pacerStateAt inputs n).isProcessing = true →
        (pacerStateAt inputs n).pendingCallback = false) := by
  induction n with
  | zero =>
      exact ⟨fun _ => rfl, fun h => Bool.noConfusion h, fun h => Bool.noConfusion h⟩
  | succ n ih =>
      obtain ⟨h0, h1, h2⟩ := ih
      have hstep : pacerStateAt inputs (n + 1) =
          (pacerStep (pacerStateAt inputs n) (inputs n)).1 := rfl
      rw [hstep]
      cases hproc : (pacerStateAt inputs n).isProcessing with
      | false =>
          have hz : (pacerStateAt inputs n).inFlight = 0 := h0 hproc
          cases hin : inputs n <;> unfold pacerStep <;> dsimp only <;>
            split_ifs <;> constructor <;> try constructor
          all_goals intro hh
          all_goals simp_all
      | true =>
          have ho : (pacerStateAt inputs n).inFlight = 1 := h1 hproc
          have hpd : (pacerStateAt inputs n).pendingCallback = false := h2 hproc
          cases hin : inputs n <;> unfold pacerStep <;> dsimp only <;>
            split_ifs <;> constructor <;> try constructor
          all_goals intro hh
          all_goals simp_all

/-- Claim C7: the frame pacer never issues a new submission to the
detection capability while a prior one is still in flight: every step that
calls `faceMesh.send` starts from a state with zero submissions in flight
and the processing flag clear, however long the in-flight completion is
delayed (ticks arriving during the in-flight window are no-ops, since the
next callback is only scheduled from the completion handlers). -/
theorem c7_no_overlapping_submission (inputs : Nat → PacerInput) (n : Nat)
    (h : (pacerStep (pacerStateAt inputs n) (inputs n)).2 = true) :
    (pacerStateAt inputs n).inFlight = 0 ∧
      (pacerStateAt inputs n).isProcessing = false := by
  obtain ⟨h0, h1, h2⟩ := pacerStateAt_invariant inputs n
  cases hin : inputs n with
  | complete =>
      rw [hin] at h
      unfold pacerStep at h
      split_ifs at h <;> exact Bool.noConfusion h
  | tick ready throws =>
      rw [hin] at h
      unfold pacerStep at h
      dsimp only at h
      split_ifs at h with hp hodd hbusy hthrow <;> try exact Bool.noConfusion h
      all_goals simp only [Bool.or_eq_true, Bool.not_eq_true', not_or] at hbusy
      all_goals
        exact ⟨h0 (Bool.not_eq_true _ ▸ hbusy.1), Bool.not_eq_true _ ▸ hbusy.1⟩

/-- Witness for C7: on the all-ticks environment, the step after frame 1
submits, and the pre-state has nothing in flight. -/
theorem c7_no_overlapping_submission_witness :
    (pacerStateAt c7Inputs 1).inFlight = 0 ∧
      (pacerStateAt c7Inputs 1).isProcessing = false :=
  c7_no_overlapping_submission c7Inputs 1 (by decide)

/-- The periodic tracking refresh of one callback invocation is emitted
exactly when the frame carries a face and the incremented frame counter is
a multiple of 150. -/
theorem onResults_tracking (sqrt : K → K) (g : GameGestureState K)
    (input : Option (Landmarks K)) :
    (∃ b, GameEvent.statusUpdate (GameStatus.tracking b) ∈ (onResults sqrt g input).events) ↔
      (input.isSome = true ∧ (g.frameCount + 1) % 150 = 0) := by
  cases input with
  | none =>
      rw [onResults_none]
      dsimp only
      constructor
      · rintro ⟨b, hb⟩
        split_ifs at hb <;> simp at hb
      · rintro ⟨hs, -⟩
        simp at hs
  | some lm =>
      rw [onResults_some_events]
      have hfc : (nodUpdate (smileUpdate sqrt
          (facePresenceUpdate { g with frameCount := g.frameCount + 1 }).1 lm).2.1 lm).2.1.frameCount
          = g.frameCount + 1 := by
        rw [nodUpdate_state, (detectGameNod_fields _ lm).2.2.1,
          (smileUpdate_fields sqrt _ lm).2.2.2.1,
          (facePresenceUpdate_fields _).2.2.2.2.2.1]
      constructor
      · rintro ⟨b, hb⟩
        simp only [List.mem_append] at hb
        rcases hb with ((hb | hb) | hb) | hb
        · exact absurd hb (facePresenceUpdate_no_tracking _ b)
        · exact absurd hb (smileUpdate_no_tracking sqrt _ lm b)
        · exact absurd hb (nodUpdate_no_tracking _ lm b)
        · rw [periodicStatus_tracking] at hb
          rw [hfc] at hb
          exact ⟨rfl, hb.1⟩
      · rintro ⟨-, hmod⟩
        refine ⟨(nodUpdate (smileUpdate sqrt
            (facePresenceUpdate { g with frameCount := g.frameCount + 1 }).1 lm).2.1
            lm).2.1.gameStarted, ?_⟩
        simp only [List.mem_append]
        right
        rw [periodicStatus_tracking, hfc]
        exact ⟨hmod, rfl⟩

set_option maxRecDepth 40000 in
/-- Claim C5 as stated is refuted: on the 150th processed frame of a run
that never sees a face the frame counter is a multiple of 150, yet no
status refresh — indeed no event at all — is emitted, because the periodic
refresh sits inside the face-present branch of the callback. -/
theorem c5_counterexample :
    ((stateAt zeroSqrt c5Inputs 149).frameCount + 1) % 150 = 0 ∧
      (frameAt zeroSqrt c5Inputs 149).events = [] := by
  with_unfolding_all decide

/-- Claim C5 (amended): the periodic status refresh describing the current
mode is emitted exactly on the processed frames that carry a face and
whose incremented frame counter is a multiple of 150; on no-face frames it
is not emitted even when the counter is a multiple of 150. -/
theorem c5_periodic_status (K : Type) [LinearOrderedField K] (sqrt : K → K)
    (inputs : Nat → Option (Landmarks K)) (i : Nat) :
    (∃ b, GameEvent.statusUpdate (GameStatus.tracking b) ∈ (frameAt sqrt inputs i).events) ↔
      ((inputs i).isSome = true ∧ ((stateAt sqrt inputs i).frameCount + 1) % 150 = 0) :=
  onResults_tracking sqrt (stateAt sqrt inputs i) (inputs i)

/-- One callback invocation dispatches `face:nod` exactly when the nod
classifier pulsed on that frame and the game-started flag (as read at the
dispatch site, which equals its end-of-frame value) is set. -/
theorem onResults_faceNod (sqrt : K → K) (g : GameGestureState K)
    (input : Option (Landmarks K)) :
    GameEvent.faceNod ∈ (onResults sqrt g input).events ↔
      (onResults sqrt g input).nodPulse = true ∧
        (onResults sqrt g input).state.gameStarted = true := by
  cases input with
  | none =>
      rw [onResults_none]
      dsimp only
      constructor
      · intro hb
        split_ifs at hb <;> simp at hb
      · rintro ⟨hp, -⟩
        exact Bool.noConfusion hp
  | some lm =>
      rw [onResults_some_events, onResults_some_nodPulse, onResults_some_state]
      have hgs : (decrementCooldowns (nodUpdate (smileUpdate sqrt
          (facePresenceUpdate { g with frameCount := g.frameCount + 1 }).1 lm).2.1
            lm).2.1).gameStarted
          = (detectGameNod (smileUpdate sqrt
            (facePresenceUpdate { g with frameCount := g.frameCount + 1 }).1 lm).2.1
              lm).2.gameStarted := by
        rw [(decrementCooldowns_fields _).2.2.2.2.2, nodUpdate_state]
      rw [hgs, nodUpdate_pulse]
      constructor
      · intro hb
        simp only [List.mem_append] at hb
        rcases hb with ((hb | hb) | hb) | hb
        · exact absurd hb (facePresenceUpdate_no_faceNod _)
        · exact absurd hb (smileUpdate_no_faceNod sqrt _ lm)
        · rw [nodUpdate_events] at hb
          split_ifs at hb with hc
          · simpa only [Bool.and_eq_true] using hc
          · simp at hb
        · exact absurd hb (periodicStatus_no_faceNod _)
      · rintro ⟨hp, hs⟩
        simp only [List.mem_append]
        left; right
        rw [nodUpdate_events, if_pos (by rw [Bool.and_eq_true]; exact ⟨hp, hs⟩)]
        simp

/-- Claim C6: on every processed frame, `face:nod` is dispatched exactly
when the nod classifier pulsed on that frame and `gameStarted` holds (the
value read at the dispatch site equals the end-of-frame value, since
nothing after the nod branch changes the flag); a nod pulse with the game
not started is still computed and consumes the cooldown — the nod cooldown
stands at 44 at the next frame, having been set to 45 and then decremented
once. -/
theorem c6_nod_event (K : Type) [LinearOrderedField K] (sqrt : K → K)
    (inputs : Nat → Option (Landmarks K)) (i : Nat) :
    (GameEvent.faceNod ∈ (frameAt sqrt inputs i).events ↔
      (frameAt sqrt inputs i).nodPulse = true ∧
        (stateAt sqrt inputs (i + 1)).gameStarted = true) ∧
      ((frameAt sqrt inputs i).nodPulse = true →
        (stateAt sqrt inputs (i + 1)).gameStarted = false →
        (stateAt sqrt inputs (i + 1)).nodCooldown = 44) :=
  ⟨onResults_faceNod sqrt (stateAt sqrt inputs i) (inputs i),
    fun hp _ => onResults_nod_fired sqrt (stateAt sqrt inputs i) (inputs i) hp⟩

/-- Witness for C6: the nod pulse of frame 1, with the game not yet
started, is computed but not surfaced and consumes the cooldown. -/
theorem c6_nod_event_witness :
    (GameEvent.faceNod ∈ (frameAt zeroSqrt c6Inputs 1).events ↔
      (frameAt zeroSqrt c6Inputs 1).nodPulse = true ∧
        (stateAt zeroSqrt c6Inputs (1 + 1)).gameStarted = true) ∧
      (stateAt zeroSqrt c6Inputs (1 + 1)).nodCooldown = 44 :=
  ⟨(c6_nod_event ℚ zeroSqrt c6Inputs 1).1,
    (c6_nod_event ℚ zeroSqrt c6Inputs 1).2 (by with_unfolding_all decide)
      (by with_unfolding_all decide)⟩

/-- After a face frame that carries a nose-tip landmark, the stored nose
height is non-null on every later frame. -/
theorem stateAt_lastNoseY_after_nose (sqrt : K → K)
    (inputs : Nat → Option (Landmarks K)) (i : Nat) (lm : Landmarks K) (p : Point K)
    (hin : inputs i = some lm) (hp : lm NOSE_TIP = some p) :
    ∀ m : Nat, (stateAt sqrt inputs (i + 1 + m)).lastNoseY ≠ none := by
  intro m
  induction m with
  | zero =>
      show (onResults sqrt (stateAt sqrt inputs i) (inputs i)).state.lastNoseY ≠ none
      rw [hin]
      exact onResults_lastNoseY_set sqrt _ lm p hp
  | succ m ih =>
      show (onResults sqrt (stateAt sqrt inputs (i + 1 + m))
          (inputs (i + 1 + m))).state.lastNoseY ≠ none
      exact onResults_lastNoseY_persist sqrt _ _ ih

/-- Claim C10: the stored last nose-Y value is null only before the first
nod evaluation that sees a nose-tip landmark, and it is never cleared when
the face is lost (a no-face frame leaves it unchanged); consequently, on
the first frame after a face is re-acquired the nod classifier computes
its delta against the last nose-Y recorded before the loss and may fire a
pulse, as the concrete trace shows: nose height 1/2 on frame 0, face lost
on frame 1, nose height 6/10 on frame 2 fires a nod on frame 2 with the
stored baseline still 1/2. -/
theorem c10_lastNoseY_baseline :
    (∀ (K : Type) [inst : LinearOrderedField K] (sqrt : K → K)
        (inputs : Nat → Option (Landmarks K)) (i n : Nat) (lm : Landmarks K) (p : Point K),
        i < n → inputs i = some lm → lm NOSE_TIP = some p →
        (stateAt sqrt inputs n).lastNoseY ≠ none) ∧
      (∀ (K : Type) [inst : LinearOrderedField K] (sqrt : K → K)
        (inputs : Nat → Option (Landmarks K)) (i : Nat),
        inputs i = none →
        (stateAt sqrt inputs (i + 1)).lastNoseY = (stateAt sqrt inputs i).lastNoseY) ∧
      ((frameAt zeroSqrt c10Inputs 2).nodPulse = true ∧
        (stateAt zeroSqrt c10Inputs 2).lastNoseY = some (1 / 2 : ℚ) ∧
        c10Inputs 1 = none) := by
  refine ⟨?_, ?_, ?_, ?_, rfl⟩
  · intro K inst sqrt inputs i n lm p hlt hin hp
    have hall := stateAt_lastNoseY_after_nose sqrt inputs i lm p hin hp (n - i - 1)
    have heq : i + 1 + (n - i - 1) = n := by omega
    rw [heq] at hall
    exact hall
  · intro K inst sqrt inputs i hin
    show (onResults sqrt (stateAt sqrt inputs i) (inputs i)).state.lastNoseY = _
    rw [hin, onResults_none_lastNoseY]
  · with_unfolding_all decide
  · with_unfolding_all decide

/-- Witness for C10 at the concrete trace. -/
theorem c10_lastNoseY_baseline_witness :
    (stateAt zeroSqrt c10Inputs 2).lastNoseY ≠ none ∧
      (stateAt zeroSqrt c10Inputs (1 + 1)).lastNoseY = (stateAt zeroSqrt c10Inputs 1).lastNoseY :=
  ⟨c10_lastNoseY_baseline.1 ℚ zeroSqrt c10Inputs 0 2 (noseLandmarks (1 / 2))
      { x := 0, y := 1 / 2 } (by decide) rfl rfl,
    c10_lastNoseY_baseline.2.1 ℚ zeroSqrt c10Inputs 1 rfl⟩

end FaceGoldMiner

